import Mathlib

/-!
Verification of the Pharma strategy tool (src/main.py) against its
natural-language specification.

The program manipulates three pandas tables loaded from an Excel workbook.
We embed a table as an ordered list of column names together with an ordered
list of rows; a row is a list of cells aligned with the column list.  A cell
is either a string, a number, or blank (pandas `NaN`: the value a blank Excel
cell is loaded as).  All operations of the program that the claims mention
are translated below, following the pandas pipeline structure of the source
(boolean masks combined with `&`, `isin`, `dropna`, `unique`, column slices).
-/

set_option autoImplicit false

namespace Pharma

/-- A cell of a loaded table: a string, a numeric value, or blank
(pandas `NaN`, which is how an empty Excel cell is represented). -/
inductive Cell where
  | str : String → Cell
  | num : Int → Cell
  | blank : Cell
  deriving DecidableEq, Repr

/-- A loaded sheet: ordered column names plus ordered rows of cells.
Rows are positionally aligned with `cols`. -/
structure Table where
  cols : List String
  rows : List (List Cell)
  deriving DecidableEq, Repr

/-- Pandas `astype(str)` on one cell: pandas renders `NaN` as the string "nan" and
numbers by their decimal representation. -/
def cellAstype : Cell → String
  | Cell.str s => s
  | Cell.num n => toString n
  | Cell.blank => "nan"

/-- ASCII lowercasing of one character, as Python `str.lower` acts on the
ASCII range relevant to the marker comparison. -/
def charLower (c : Char) : Char :=
  if 65 ≤ c.toNat ∧ c.toNat ≤ 90 then Char.ofNat (c.toNat + 32) else c

/-- Python `str.lower`, character by character. -/
def strLower (s : String) : String :=
  String.mk (s.data.map charLower)

/-- One cell comparison of the filter, embedding
`df[col].astype(str).str.lower() == 'x'` applied to a single cell. -/
def matchesX (c : Cell) : Bool :=
  strLower (cellAstype c) == "x"

/-- Index of the first column with the given name (`cols.length` when the
name is absent; every use below is guarded by a membership check, as in the
source). -/
def colIdx (cols : List String) (c : String) : Nat :=
  cols.findIdx (fun x => x == c)

/-- The cell of `row` at position `i` (blank when the row is shorter). -/
def cellAt (row : List Cell) (i : Nat) : Cell :=
  row.getD i Cell.blank

/-- The column series `df[c]`: the cells of column `c` in row order. -/
def seriesOf (df : Table) (c : String) : List Cell :=
  df.rows.map (fun row => cellAt row (colIdx df.cols c))

/-- The boolean mask `df[c].astype(str).str.lower() == 'x'`. -/
def xMask (df : Table) (c : String) : List Bool :=
  (seriesOf df c).map matchesX

/-- Elementwise conjunction of two masks (pandas `&`). -/
def andMask (m1 m2 : List Bool) : List Bool :=
  List.zipWith and m1 m2

/-- Boolean-mask row selection `df[mask]`. -/
def selectRows (rows : List (List Cell)) (m : List Bool) : List (List Cell) :=
  (rows.zip m).filterMap (fun rb => if rb.2 then some rb.1 else none)

/-- Effect of `dropna` on one cell. -/
def dropBlank : Cell → Option Cell
  | Cell.blank => none
  | Cell.str s => some (Cell.str s)
  | Cell.num n => some (Cell.num n)

/-- Embedding of `series.dropna()`: remove blank (`NaN`) cells. -/
def dropna (cs : List Cell) : List Cell :=
  cs.filterMap dropBlank

/-- Embedding of `filter_strategic_imperatives` (src/main.py lines 57-76).
The source first checks that the three selected columns exist and returns
`[]` (after `st.error`) otherwise; inside the `try` block it builds the three
`== 'x'` masks, conjoins them, selects the rows, projects the
"Strategic Imperative" column, drops `NaN` entries and returns the list.
The only statement in the `try` block that can raise is the lookup of the
"Strategic Imperative" column; that exception is caught and `[]` returned. -/
def filter_strategic_imperatives (df : Table) (role lifecycle journey : String) :
    List Cell :=
  if df.cols.contains role && df.cols.contains lifecycle && df.cols.contains journey then
    if df.cols.contains "Strategic Imperative" then
      let m := andMask (andMask (xMask df role) (xMask df lifecycle)) (xMask df journey)
      let filtered := selectRows df.rows m
      dropna (filtered.map (fun row => cellAt row (colIdx df.cols "Strategic Imperative")))
    else []
  else []

/-- The inputs on which `filter_strategic_imperatives` reports an error via
`st.error` before returning `[]`: a missing selected column, or the missing
"Strategic Imperative" column that makes the `try` block raise. -/
def filterErrorReported (df : Table) (role lifecycle journey : String) : Bool :=
  !(df.cols.contains role && df.cols.contains lifecycle && df.cols.contains journey
      && df.cols.contains "Strategic Imperative")

theorem selectRows_map (p : List Cell → Bool) :
    ∀ rows : List (List Cell), selectRows rows (rows.map p) = rows.filter p := by
  intro rows
  induction rows with
  | nil => rfl
  | cons a t ih =>
      simp only [List.map_cons, selectRows, List.zip_cons_cons, List.filterMap_cons,
        List.filter_cons]
      cases h : p a <;> simpa [h, selectRows] using ih

theorem andMask_map_map (p q : List Cell → Bool) :
    ∀ l : List (List Cell),
      andMask (l.map p) (l.map q) = l.map (fun r => p r && q r) := by
  intro l
  induction l with
  | nil => rfl
  | cons a t ih =>
      simp only [List.map_cons, andMask, List.zipWith_cons_cons] at *
      rw [ih]

theorem xMask_eq_map (df : Table) (c : String) :
    xMask df c = df.rows.map (fun row => matchesX (cellAt row (colIdx df.cols c))) := by
  simp [xMask, seriesOf, List.map_map, Function.comp]

/-- Embedding of `role_options = list(sheet1.columns[1:4])` (line 48). -/
def role_options (cols : List String) : List String :=
  (cols.drop 1).take 3

/-- Embedding of `lifecycle_options = list(sheet1.columns[4:9])` (line 50). -/
def lifecycle_options (cols : List String) : List String :=
  (cols.drop 4).take 5

/-- Embedding of `journey_options = list(sheet1.columns[9:13])` (line 52). -/
def journey_options (cols : List String) : List String :=
  (cols.drop 9).take 4

/-- pandas `Series.unique`: keep the first occurrence of every value, in
order; `seen` accumulates the values already emitted. -/
def uniqueAux (seen : List Cell) : List Cell → List Cell
  | [] => []
  | c :: rest =>
      if c ∈ seen then uniqueAux seen rest
      else c :: uniqueAux (c :: seen) rest

/-- pandas `Series.unique` (first occurrences kept, order preserved). -/
def uniqueFirst (cs : List Cell) : List Cell :=
  uniqueAux [] cs

/-- Embedding of lines 134-138: the handler stops (`st.stop`, modelled as
`none`) unless sheet2 has a "Product Differentiators" column, and otherwise
computes `sheet2["Product Differentiators"].dropna().unique().tolist()`. -/
def product_diff_options (sheet2 : Table) : Option (List Cell) :=
  if sheet2.cols.contains "Product Differentiators" then
    some (uniqueFirst (dropna (seriesOf sheet2 "Product Differentiators")))
  else none

/-- Embedding of lines 148-153 of the Generate Strategy handler: stop
(`none`) unless sheet3 has the "Strategic Imperative" and "Result" columns,
then select the rows whose "Strategic Imperative" cell is `isin` the
selected imperatives; the handler then iterates exactly these rows in
order. -/
def results_df (sheet3 : Table) (selected_strategics : List Cell) :
    Option (List (List Cell)) :=
  if sheet3.cols.contains "Strategic Imperative" && sheet3.cols.contains "Result" then
    some (selectRows sheet3.rows
      ((seriesOf sheet3 "Strategic Imperative").map
        (fun c => selected_strategics.contains c)))
  else none

/-- Embedding of lines 160-163 of the Generate Strategy handler:
`differentiators_text` is the ", "-join of the selected differentiators when
the list is non-empty (otherwise ""), and the parenthesised suffix is
appended only when `differentiators_text` is a non-empty (truthy) string. -/
def customize_result (base_result : String) (selected_differentiators : List String) :
    String :=
  let differentiators_text :=
    if selected_differentiators.isEmpty then ""
    else String.intercalate ", " selected_differentiators
  if differentiators_text.isEmpty then base_result
  else base_result ++ " (Customized with: " ++ differentiators_text ++ ")"

/-- JSON values, the possible results of `json.loads` on a response text. -/
inductive Json where
  | obj : List (String × Json) → Json
  | arr : List Json → Json
  | str : String → Json
  | num : Int → Json
  | bool : Bool → Json
  | null : Json

/-- The fallback record returned by `generate_ai_output` on any failure. -/
def fallbackRecord : Json :=
  Json.obj [("description", Json.str "N/A"), ("cost", Json.str "N/A"),
    ("timeframe", Json.str "N/A")]

/-- Outcome of one invocation of the text-generation capability, as observed
by `generate_ai_output`: the provider call raises, or it returns text that
`json.loads` rejects, or it returns text parsing to the JSON value `v`. -/
inductive AIResponse where
  | invokeError : AIResponse
  | parseError : AIResponse
  | parsed : Json → AIResponse

/-- The f-string prompt of lines 84-91, assembled by concatenation. -/
def buildPrompt (customized_result differentiators_text : String) : String :=
  "You are an expert pharmaceutical marketing strategist.\n" ++
  "Given the following strategy description: \"" ++ customized_result ++ "\"\n" ++
  "and the selected product differentiators: \"" ++ differentiators_text ++ "\",\n" ++
  "please provide a short 2-3 sentence description of the strategic recommendation.\n" ++
  "Also, provide an estimated cost range in USD and an estimated timeframe in months for implementation.\n" ++
  "Return the output as a JSON object with keys \"description\", \"cost\", and \"timeframe\"."

/-- Embedding of `generate_ai_output` (lines 78-111).  The outer `try`
catches every invocation failure and returns the fallback record; the inner
`try` catches `json.JSONDecodeError` and returns the fallback record; a
successfully parsed JSON value is returned unchanged, whatever its shape. -/
def generate_ai_output (customized_result : String)
    (selected_differentiators : List String) (resp : AIResponse) : Json :=
  let differentiators_text :=
    if selected_differentiators.isEmpty then "None"
    else String.intercalate ", " selected_differentiators
  let _prompt := buildPrompt customized_result differentiators_text
  match resp with
  | AIResponse.invokeError => fallbackRecord
  | AIResponse.parseError => fallbackRecord
  | AIResponse.parsed v => v

/-- Whether a JSON value is an object carrying the key `k`. -/
def jsonHasKey (j : Json) (k : String) : Bool :=
  match j with
  | Json.obj fields => fields.any (fun p => p.1 == k)
  | _ => false

/-- A record is fully populated when it has all three expected keys. -/
def fullyPopulated (j : Json) : Bool :=
  jsonHasKey j "description" && jsonHasKey j "cost" && jsonHasKey j "timeframe"

theorem mem_uniqueAux (c : Cell) :
    ∀ (l seen : List Cell), c ∈ uniqueAux seen l ↔ c ∈ l ∧ c ∉ seen := by
  intro l
  induction l with
  | nil => intro seen; simp [uniqueAux]
  | cons a t ih =>
      intro seen
      by_cases h : a ∈ seen
      · simp only [uniqueAux, if_pos h, ih, List.mem_cons]
        constructor
        · rintro ⟨hm, hs⟩; exact ⟨Or.inr hm, hs⟩
        · rintro ⟨hm, hs⟩
          rcases hm with rfl | hm
          · exact absurd h hs
          · exact ⟨hm, hs⟩
      · simp only [uniqueAux, if_neg h, List.mem_cons, ih]
        constructor
        · rintro (rfl | ⟨hm, hs⟩)
          · exact ⟨Or.inl rfl, h⟩
          · refine ⟨Or.inr hm, fun hc => hs (Or.inr hc)⟩
        · rintro ⟨rfl | hm, hs⟩
          · exact Or.inl rfl
          · by_cases hca : c = a
            · exact Or.inl hca
            · exact Or.inr ⟨hm, by simp [hca, hs]⟩

theorem nodup_uniqueAux : ∀ (l seen : List Cell), (uniqueAux seen l).Nodup := by
  intro l
  induction l with
  | nil => intro seen; simp [uniqueAux]
  | cons a t ih =>
      intro seen
      by_cases h : a ∈ seen
      · simpa [uniqueAux, if_pos h] using ih seen
      · simp only [uniqueAux, if_neg h, List.nodup_cons]
        refine ⟨fun hc => ?_, ih _⟩
        exact ((mem_uniqueAux a t (a :: seen)).1 hc).2 (List.mem_cons_self a seen)

theorem mem_dropna (c : Cell) (cs : List Cell) :
    c ∈ dropna cs ↔ c ∈ cs ∧ c ≠ Cell.blank := by
  simp only [dropna, List.mem_filterMap]
  constructor
  · rintro ⟨a, ha, hd⟩
    cases a with
    | blank => simp [dropBlank] at hd
    | str s => simp only [dropBlank, Option.some.injEq] at hd; subst hd; exact ⟨ha, by simp⟩
    | num n => simp only [dropBlank, Option.some.injEq] at hd; subst hd; exact ⟨ha, by simp⟩
  · rintro ⟨ha, hb⟩
    refine ⟨c, ha, ?_⟩
    cases c with
    | blank => exact absurd rfl hb
    | str s => rfl
    | num n => rfl

/-- Rewriting of `df[col].isin(sel)` as a map over the rows. -/
theorem isinMask_eq_map (df : Table) (c : String) (sel : List Cell) :
    (seriesOf df c).map (fun x => sel.contains x) =
      df.rows.map (fun row => sel.contains (cellAt row (colIdx df.cols c))) := by
  simp [seriesOf, List.map_map, Function.comp]

/-- A 13-column criteria table in the shape of the workbook: label column,
three role columns, five lifecycle columns, four journey columns.  The first
row is marked "x" under Marketer, Pre-Launch and Awareness; the second row is
marked under Marketer and Pre-Launch only. -/
def dfC1 : Table :=
  ⟨["Strategic Imperative", "Marketer", "Clinician", "Payer",
    "Pre-Launch", "Launch", "Growth", "Mature", "Decline",
    "Awareness", "Consideration", "Conversion", "Loyalty"],
   [[Cell.str "Grow Market Share", Cell.str "x", Cell.blank, Cell.blank,
     Cell.str "x", Cell.blank, Cell.blank, Cell.blank, Cell.blank,
     Cell.str "x", Cell.blank, Cell.blank, Cell.blank],
    [Cell.str "Two Of Three Row", Cell.str "x", Cell.blank, Cell.blank,
     Cell.str "x", Cell.blank, Cell.blank, Cell.blank, Cell.blank,
     Cell.blank, Cell.blank, Cell.blank, Cell.blank]]⟩

/-- A two-column table (fewer than the 13 the schema expects). -/
def dfC2 : Table :=
  ⟨["Strategic Imperative", "Marketer"],
   [[Cell.str "Grow Market Share", Cell.str "x"]]⟩

/-- A criteria table whose single row carries uppercase "X" markers. -/
def dfC4case : Table :=
  ⟨["Strategic Imperative", "Marketer", "Clinician", "Payer",
    "Pre-Launch", "Launch", "Growth", "Mature", "Decline",
    "Awareness", "Consideration", "Conversion", "Loyalty"],
   [[Cell.str "Upper Marker Row", Cell.str "X", Cell.blank, Cell.blank,
     Cell.str "X", Cell.blank, Cell.blank, Cell.blank, Cell.blank,
     Cell.str "X", Cell.blank, Cell.blank, Cell.blank]]⟩

/-- A criteria table whose single row carries whitespace-padded markers
"X " and " x" in the three selected columns. -/
def dfC4space : Table :=
  ⟨["Strategic Imperative", "Marketer", "Clinician", "Payer",
    "Pre-Launch", "Launch", "Growth", "Mature", "Decline",
    "Awareness", "Consideration", "Conversion", "Loyalty"],
   [[Cell.str "Whitespace Marker Row", Cell.str "X ", Cell.blank, Cell.blank,
     Cell.str " x", Cell.blank, Cell.blank, Cell.blank, Cell.blank,
     Cell.str "x", Cell.blank, Cell.blank, Cell.blank]]⟩

/-- A well-formed criteria table with no "x" markers at all: every selection
legitimately matches no row. -/
def dfC10 : Table :=
  ⟨["Strategic Imperative", "Marketer", "Clinician", "Payer",
    "Pre-Launch", "Launch", "Growth", "Mature", "Decline",
    "Awareness", "Consideration", "Conversion", "Loyalty"],
   [[Cell.str "Grow Market Share", Cell.blank, Cell.blank, Cell.blank,
     Cell.blank, Cell.blank, Cell.blank, Cell.blank, Cell.blank,
     Cell.blank, Cell.blank, Cell.blank, Cell.blank]]⟩

/-- A results table with two rows sharing the imperative label
"Grow Market Share" and distinct Result texts. -/
def sheet3W : Table :=
  ⟨["Strategic Imperative", "Result"],
   [[Cell.str "Grow Market Share", Cell.str "Result A"],
    [Cell.str "Grow Market Share", Cell.str "Result B"],
    [Cell.str "Optimize Access", Cell.str "Result C"]]⟩

/-- A differentiators table with a duplicate label and a blank row. -/
def sheet2W : Table :=
  ⟨["Product Differentiators"],
   [[Cell.str "Faster Onset"], [Cell.blank], [Cell.str "Faster Onset"],
    [Cell.str "Improved Safety"]]⟩

/-- A parsed response object that carries only one of the three keys. -/
def incompleteOutput : Json :=
  Json.obj [("description", Json.str "A short description.")]

/-- Claim C1: for every criteria table and role/lifecycle/journey column
triple (all present, "Strategic Imperative" present), the filter returns
exactly the "Strategic Imperative" values (blank values dropped, per the
specification wording "drop blank/missing entries") of the rows whose cells in all three
selected columns match the case-insensitive "x" test — the logical AND of
the three column predicates, so a row marked in only two of the three
columns is never returned. -/
theorem claim_c1_filter_is_conjunction (df : Table) (role lifecycle journey : String)
    (h1 : df.cols.contains role = true) (h2 : df.cols.contains lifecycle = true)
    (h3 : df.cols.contains journey = true)
    (h4 : df.cols.contains "Strategic Imperative" = true) :
    filter_strategic_imperatives df role lifecycle journey =
      dropna ((df.rows.filter (fun row =>
          (matchesX (cellAt row (colIdx df.cols role)) &&
            matchesX (cellAt row (colIdx df.cols lifecycle))) &&
          matchesX (cellAt row (colIdx df.cols journey)))).map
        (fun row => cellAt row (colIdx df.cols "Strategic Imperative"))) := by
  simp only [filter_strategic_imperatives, h1, h2, h3, h4, Bool.and_self, Bool.true_and,
    if_true]
  rw [xMask_eq_map, xMask_eq_map, xMask_eq_map, andMask_map_map, andMask_map_map,
    selectRows_map]

/-- Claim C1 witness: on the concrete table `dfC1` the filter keeps the row
marked in all three selected columns and drops the row marked in only two;
the characterization theorem instantiates to this concrete equality. -/
theorem claim_c1_witness :
    filter_strategic_imperatives dfC1 "Marketer" "Pre-Launch" "Awareness" =
      [Cell.str "Grow Market Share"] :=
  (claim_c1_filter_is_conjunction dfC1 "Marketer" "Pre-Launch" "Awareness"
    (by decide) (by decide) (by decide) (by decide)).trans (by decide)

/-- Claim C2 counterexample: "Oncologist" is not a column of `dfC2`, yet the
filter does not fail — it returns the value `[]` (the source reports the
problem via `st.error` and returns an empty list; no `ColumnNotFoundError`
exists anywhere in the program). -/
theorem claim_c2_counterexample :
    dfC2.cols.contains "Oncologist" = false ∧
    filter_strategic_imperatives dfC2 "Oncologist" "Marketer" "Marketer" = [] := by
  decide

/-- Claim C2 amended: when at least one of role/lifecycle/journey is not an
existing column of the criteria table, the filter reports a user-visible
error and returns the empty list instead of raising. -/
theorem claim_c2_amended (df : Table) (role lifecycle journey : String)
    (h : df.cols.contains role = false ∨ df.cols.contains lifecycle = false ∨
      df.cols.contains journey = false) :
    filter_strategic_imperatives df role lifecycle journey = [] := by
  rcases h with h | h | h <;>
    (unfold filter_strategic_imperatives; simp at h; rw [if_neg (by simp [h])])

/-- Claim C2 witness: the amended theorem applied to `dfC2` and the missing
column "Payer". -/
theorem claim_c2_witness :
    filter_strategic_imperatives dfC2 "Payer" "Marketer" "Marketer" = [] :=
  claim_c2_amended dfC2 "Payer" "Marketer" "Marketer" (Or.inl (by decide))

/-- Claim C3: the enrichment operation promises (docstring, lines 80-81) a
record with the keys description, cost and timeframe, but a response that
parses as a JSON object missing some of those keys is returned verbatim:
a partially populated record, distinct from the fallback. -/
theorem claim_c3_partial_record :
    generate_ai_output "Launch campaign X" [] (AIResponse.parsed incompleteOutput) =
      incompleteOutput ∧
    fullyPopulated incompleteOutput = false ∧
    fullyPopulated fallbackRecord = true :=
  ⟨rfl, rfl, rfl⟩

/-- Claim C4 counterexample: a cell holding "x" surrounded by whitespace
("X " or " x") does not match — the comparison lowercases but never strips —
and on the concrete table `dfC4space`, whose only row carries such markers,
the filter returns nothing. -/
theorem claim_c4_counterexample :
    matchesX (Cell.str "X ") = false ∧ matchesX (Cell.str " x") = false ∧
    filter_strategic_imperatives dfC4space "Marketer" "Pre-Launch" "Awareness" = [] := by
  decide

/-- Claim C4 amended: the "x" marker comparison is case-insensitive — a
string cell matches exactly when its lowercasing equals "x", so "X" matches
(`dfC4case`) — but it is not whitespace-tolerant: "X " and " x" do not
match, and a row carrying them is not returned (`dfC4space`). -/
theorem claim_c4_amended :
    (∀ s : String, matchesX (Cell.str s) = (strLower s == "x")) ∧
    filter_strategic_imperatives dfC4case "Marketer" "Pre-Launch" "Awareness" =
      [Cell.str "Upper Marker Row"] ∧
    filter_strategic_imperatives dfC4space "Marketer" "Pre-Launch" "Awareness" = [] :=
  ⟨fun _ => rfl, by decide, by decide⟩

/-- Claim C5: for every base text and differentiator list, a failed
text-generation invocation or an unparseable response makes the enrichment
return exactly the fallback record; both failure paths are caught, so
nothing is raised. -/
theorem claim_c5_failure_fallback (customized_result : String)
    (selected_differentiators : List String) :
    generate_ai_output customized_result selected_differentiators
        AIResponse.invokeError = fallbackRecord ∧
    generate_ai_output customized_result selected_differentiators
        AIResponse.parseError = fallbackRecord :=
  ⟨rfl, rfl⟩

/-- Claim C6 counterexample: for the non-empty differentiator sequence
`[""]` the customized text is the base text unchanged, not the base text
with " (Customized with: )" appended — the source tests the truthiness of
the joined text, not of the sequence. -/
theorem claim_c6_counterexample :
    customize_result "Launch campaign X" [""] = "Launch campaign X" ∧
    ([""] : List String) ≠ [] ∧
    customize_result "Launch campaign X" [""] ≠
      "Launch campaign X" ++ " (Customized with: " ++
        String.intercalate ", " [""] ++ ")" := by
  decide

/-- Claim C6 amended: the customized text equals the base text with
" (Customized with: " ++ join ++ ")" appended when the differentiator
sequence is non-empty and its ", "-join is a non-empty string, and equals
the base text unchanged when the sequence is empty or the join is empty. -/
theorem claim_c6_amended (base_text : String) (diffs : List String) :
    (diffs = [] → customize_result base_text diffs = base_text) ∧
    (diffs ≠ [] → String.intercalate ", " diffs ≠ "" →
      customize_result base_text diffs =
        base_text ++ " (Customized with: " ++ String.intercalate ", " diffs ++ ")") ∧
    (diffs ≠ [] → String.intercalate ", " diffs = "" →
      customize_result base_text diffs = base_text) := by
  refine ⟨?_, ?_, ?_⟩
  · rintro rfl; rfl
  · intro hne hj
    have hE : diffs.isEmpty = false := by
      cases diffs with
      | nil => exact absurd rfl hne
      | cons a t => rfl
    have hJ : (String.intercalate ", " diffs).isEmpty = false := by
      cases hcase : (String.intercalate ", " diffs).isEmpty with
      | false => rfl
      | true => exact absurd ((String.isEmpty_iff _).mp hcase) hj
    simp [customize_result, hE, hJ]
  · intro hne hj
    have hE : diffs.isEmpty = false := by
      cases diffs with
      | nil => exact absurd rfl hne
      | cons a t => rfl
    have h0 : ("" : String).isEmpty = true := rfl
    simp [customize_result, hE, hj, h0]

/-- Claim C6 witness: the end-to-end scenario of the specification, via the amended
theorem. -/
theorem claim_c6_witness :
    customize_result "Launch campaign X" ["Faster Onset"] =
      "Launch campaign X (Customized with: Faster Onset)" :=
  ((claim_c6_amended "Launch campaign X" ["Faster Onset"]).2.1
    (by decide) (by decide)).trans (by decide)

/-- Claim C7: for every results table with the "Strategic Imperative" and
"Result" columns and every selection, the join keeps exactly the rows whose
"Strategic Imperative" value is a member of the selection, in table order —
so no deduplication, no cap, and two rows sharing a label both appear. -/
theorem claim_c7_join_rows (sheet3 : Table) (selected : List Cell)
    (h1 : sheet3.cols.contains "Strategic Imperative" = true)
    (h2 : sheet3.cols.contains "Result" = true) :
    results_df sheet3 selected =
      some (sheet3.rows.filter (fun row =>
        selected.contains (cellAt row (colIdx sheet3.cols "Strategic Imperative")))) := by
  simp only [results_df, h1, h2, Bool.and_self, Bool.true_and, if_true]
  rw [isinMask_eq_map, selectRows_map]

/-- Claim C7 witness: on `sheet3W`, whose first two rows share the label
"Grow Market Share", selecting that label yields both rows in table order. -/
theorem claim_c7_witness :
    results_df sheet3W [Cell.str "Grow Market Share"] =
      some [[Cell.str "Grow Market Share", Cell.str "Result A"],
        [Cell.str "Grow Market Share", Cell.str "Result B"]] :=
  (claim_c7_join_rows sheet3W [Cell.str "Grow Market Share"]
    (by decide) (by decide)).trans (by decide)

/-- Claim C9: the differentiator options are the "Product Differentiators"
column with blanks and duplicates removed: the option list has no duplicate
and holds exactly the non-blank values of the column, so each distinct
non-blank label appears exactly once. -/
theorem claim_c9_options_unique (sheet2 : Table)
    (h : sheet2.cols.contains "Product Differentiators" = true) :
    ∃ opts, product_diff_options sheet2 = some opts ∧ opts.Nodup ∧
      ∀ c, c ∈ opts ↔
        (c ∈ seriesOf sheet2 "Product Differentiators" ∧ c ≠ Cell.blank) := by
  refine ⟨uniqueFirst (dropna (seriesOf sheet2 "Product Differentiators")), ?_, ?_, ?_⟩
  · unfold product_diff_options
    rw [if_pos h]
  · exact nodup_uniqueAux _ _
  · intro c
    simp [uniqueFirst, mem_uniqueAux, mem_dropna]

/-- Claim C9 witness: the theorem applied to the concrete table `sheet2W`,
which has a duplicate label and a blank row. -/
theorem claim_c9_witness :
    ∃ opts, product_diff_options sheet2W = some opts ∧ opts.Nodup ∧
      ∀ c, c ∈ opts ↔
        (c ∈ seriesOf sheet2W "Product Differentiators" ∧ c ≠ Cell.blank) :=
  claim_c9_options_unique sheet2W (by decide)

/-- Claim C10: the imperative filter is total — it returns a list on every
input — and every failure path (a missing selected column, or a missing
"Strategic Imperative" column that makes the row selection raise) returns
the empty list, which is also what a legitimate no-rows-matched input
(`dfC10`, where nothing is error-reported) returns: by return value alone
the two are indistinguishable. -/
theorem claim_c10_total_and_silent :
    (∀ (df : Table) (role lifecycle journey : String),
        filterErrorReported df role lifecycle journey = true →
        filter_strategic_imperatives df role lifecycle journey = []) ∧
    filterErrorReported dfC10 "Marketer" "Pre-Launch" "Awareness" = false ∧
    filter_strategic_imperatives dfC10 "Marketer" "Pre-Launch" "Awareness" = [] := by
  refine ⟨?_, by decide, by decide⟩
  intro df role lifecycle journey h
  simp only [filterErrorReported, Bool.not_eq_true'] at h
  unfold filter_strategic_imperatives
  cases h1 : df.cols.contains role <;> cases h2 : df.cols.contains lifecycle <;>
    cases h3 : df.cols.contains journey <;>
    cases h4 : df.cols.contains "Strategic Imperative" <;> simp_all

/-- Claim C10 witness: the error path of the theorem applied to a table with
none of the requested columns. -/
theorem claim_c10_witness :
    filter_strategic_imperatives (Table.mk ["A"] []) "R" "L" "J" = [] :=
  claim_c10_total_and_silent.1 (Table.mk ["A"] []) "R" "L" "J" (by decide)

/-- Claim C8 counterexample: a two-column table yields option lists (a
returned value, silently truncated) rather than failing with `SchemaError`:
the source slices `columns[1:4]`, `[4:9]`, `[9:13]` with no length check. -/
theorem claim_c8_counterexample :
    (["Strategic Imperative", "Marketer"] : List String).length < 13 ∧
    role_options ["Strategic Imperative", "Marketer"] = ["Marketer"] ∧
    lifecycle_options ["Strategic Imperative", "Marketer"] = [] ∧
    journey_options ["Strategic Imperative", "Marketer"] = [] := by
  decide

/-- Claim C8 amended: option resolution never fails; the column slices
silently truncate on a short table, and whenever the table has at least 13
columns the role options are the columns at positions 1-3, the lifecycle
options those at 4-8, and the journey options those at 9-12, in column
order. -/
theorem claim_c8_amended (c0 c1 c2 c3 c4 c5 c6 c7 c8 c9 c10 c11 c12 : String)
    (rest : List String) :
    role_options (c0 :: c1 :: c2 :: c3 :: c4 :: c5 :: c6 :: c7 :: c8 :: c9 ::
        c10 :: c11 :: c12 :: rest) = [c1, c2, c3] ∧
    lifecycle_options (c0 :: c1 :: c2 :: c3 :: c4 :: c5 :: c6 :: c7 :: c8 :: c9 ::
        c10 :: c11 :: c12 :: rest) = [c4, c5, c6, c7, c8] ∧
    journey_options (c0 :: c1 :: c2 :: c3 :: c4 :: c5 :: c6 :: c7 :: c8 :: c9 ::
        c10 :: c11 :: c12 :: rest) = [c9, c10, c11, c12] :=
  ⟨rfl, rfl, rfl⟩

end Pharma
